import Mathlib

/-!
Verification of the storefront-connection core: credential resolution for
pushes (app/api/push-to-shopify/route.ts), webhook signature verification and
dispatch (app/api/shopify-webhook/route.ts), session verification
(app/api/auth/session/route.ts), and the two-source store-list merge
(app/api/products/supplier/route.ts).

Bytes are modelled as natural numbers below 256; 32-bit machine words as
natural numbers reduced modulo 2 ^ 32. The Node primitives the routes call
(crypto.createHmac("sha256", ...).digest("base64"), Buffer.toString("base64"))
are given their standard semantics: FIPS 180-4 SHA-256, RFC 2104 HMAC and
RFC 4648 base64 over the UTF-8 bytes of the strings involved.
-/

namespace Drp

/-! ## UTF-8 encoding of strings -/

/-- UTF-8 bytes of one unicode scalar value. -/
def utf8Char (n : Nat) : List Nat :=
  if n < 128 then [n]
  else if n < 2048 then [192 + n / 64, 128 + n % 64]
  else if n < 65536 then [224 + n / 4096, 128 + n / 64 % 64, 128 + n % 64]
  else [240 + n / 262144, 128 + n / 4096 % 64, 128 + n / 64 % 64, 128 + n % 64]

/-- UTF-8 bytes of a string, the byte view Node takes of string inputs. -/
def utf8Bytes (s : String) : List Nat :=
  s.data.flatMap (fun c => utf8Char c.toNat)

/-! ## RFC 4648 base64 -/

/-- The base64 alphabet, indexed 0..63. -/
def b64Alphabet : List Char :=
  "ABCDEFGHIJKLMNOPQRSTUVWXYZabcdefghijklmnopqrstuvwxyz0123456789+/".data

/-- Character for one 6-bit group. -/
def b64Char (n : Nat) : Char := b64Alphabet.getD n 'A'

/-- Base64 characters of a byte list, three input bytes to four output
characters, padded with = at the end. -/
def b64Chunks : List Nat → List Char
  | [] => []
  | [a] => [b64Char (a / 4), b64Char (a % 4 * 16), '=', '=']
  | [a, b] => [b64Char (a / 4), b64Char (a % 4 * 16 + b / 16), b64Char (b % 16 * 4), '=']
  | a :: b :: c :: rest =>
      b64Char (a / 4) :: b64Char (a % 4 * 16 + b / 16) ::
      b64Char (b % 16 * 4 + c / 64) :: b64Char (c % 64) :: b64Chunks rest

/-- Base64 encoding of a byte list, as Buffer.toString("base64") and
digest("base64") produce it. -/
def base64Encode (bs : List Nat) : String :=
  String.mk (b64Chunks bs)

/-! ## SHA-256 (FIPS 180-4) over byte lists -/

/-- Reduce to a 32-bit word. -/
def w32 (n : Nat) : Nat := n % 4294967296

/-- Right rotation of a 32-bit word by k bits. -/
def rotr (k x : Nat) : Nat := w32 (x / 2 ^ k + x % 2 ^ k * 2 ^ (32 - k))

/-- Bitwise complement of a 32-bit word. -/
def comp32 (x : Nat) : Nat := Nat.xor x 4294967295

/-- Choice function of the compression rounds. -/
def ch32 (x y z : Nat) : Nat := Nat.xor (Nat.land x y) (Nat.land (comp32 x) z)

/-- Majority function of the compression rounds. -/
def maj32 (x y z : Nat) : Nat :=
  Nat.xor (Nat.xor (Nat.land x y) (Nat.land x z)) (Nat.land y z)

/-- Big sigma 0. -/
def bsig0 (x : Nat) : Nat := Nat.xor (Nat.xor (rotr 2 x) (rotr 13 x)) (rotr 22 x)

/-- Big sigma 1. -/
def bsig1 (x : Nat) : Nat := Nat.xor (Nat.xor (rotr 6 x) (rotr 11 x)) (rotr 25 x)

/-- Small sigma 0. -/
def ssig0 (x : Nat) : Nat := Nat.xor (Nat.xor (rotr 7 x) (rotr 18 x)) (x / 8)

/-- Small sigma 1. -/
def ssig1 (x : Nat) : Nat := Nat.xor (Nat.xor (rotr 17 x) (rotr 19 x)) (x / 1024)

/-- The 64 round constants. -/
def sha256K : List Nat :=
  [1116352408, 1899447441, 3049323471, 3921009573, 961987163, 1508970993,
   2453635748, 2870763221, 3624381080, 310598401, 607225278, 1426881987,
   1925078388, 2162078206, 2614888103, 3248222580, 3835390401, 4022224774,
   264347078, 604807628, 770255983, 1249150122, 1555081692, 1996064986,
   2554220882, 2821834349, 2952996808, 3210313671, 3336571891, 3584528711,
   113926993, 338241895, 666307205, 773529912, 1294757372, 1396182291,
   1695183700, 1986661051, 2177026350, 2456956037, 2730485921, 2820302411,
   3259730800, 3345764771, 3516065817, 3600352804, 4094571909, 275423344,
   430227734, 506948616, 659060556, 883997877, 958139571, 1322822218,
   1537002063, 1747873779, 1955562222, 2024104815, 2227730452, 2361852424,
   2428436474, 2756734187, 3204031479, 3329325298]

/-- The initial hash state. -/
def sha256Init : List Nat :=
  [1779033703, 3144134277, 1013904242, 2773480762, 1359893119, 2600822924,
   528734635, 1541459225]

/-- Big-endian bytes of a number, fixed width. -/
def bytesBE : Nat → Nat → List Nat
  | 0, _ => []
  | k + 1, n => n / 256 ^ k % 256 :: bytesBE k n

/-- Pack bytes into 32-bit words, big-endian, four at a time. -/
def toWords : List Nat → List Nat
  | a :: b :: c :: d :: rest =>
      (a * 16777216 + b * 65536 + c * 256 + d) :: toWords rest
  | _ => []

/-- SHA-256 message padding: a 0x80 byte, zeros to 56 mod 64, then the bit
length as eight big-endian bytes. -/
def sha256Pad (msg : List Nat) : List Nat :=
  msg ++ 128 :: List.replicate ((64 + 55 - msg.length % 64) % 64) 0
      ++ bytesBE 8 (8 * msg.length)

/-- Extend a 16-word block schedule by k further words. -/
def extendWords (ws : List Nat) : Nat → List Nat
  | 0 => ws
  | k + 1 =>
      let n := ws.length
      extendWords
        (ws ++ [w32 (ssig1 (ws.getD (n - 2) 0) + ws.getD (n - 7) 0 +
                     ssig0 (ws.getD (n - 15) 0) + ws.getD (n - 16) 0)]) k

/-- One compression round on the eight-word state. -/
def sha256Round (st : List Nat) (kw : Nat × Nat) : List Nat :=
  match st with
  | [a, b, c, d, e, f, g, h] =>
      let t1 := w32 (h + bsig1 e + ch32 e f g + kw.1 + kw.2)
      let t2 := w32 (bsig0 a + maj32 a b c)
      [w32 (t1 + t2), a, b, c, w32 (d + t1), e, f, g]
  | st => st

/-- Compress one 16-word block into the running state. -/
def sha256Compress (h : List Nat) (block : List Nat) : List Nat :=
  let ws := extendWords block 48
  let st := (sha256K.zip ws).foldl sha256Round h
  (h.zip st).map (fun p => w32 (p.1 + p.2))

/-- Split a word list into 16-word blocks, dropping any ragged tail; padded
input has none. -/
def toBlocks : List Nat → List (List Nat)
  | w0 :: w1 :: w2 :: w3 :: w4 :: w5 :: w6 :: w7 ::
    w8 :: w9 :: w10 :: w11 :: w12 :: w13 :: w14 :: w15 :: rest =>
      [w0, w1, w2, w3, w4, w5, w6, w7,
       w8, w9, w10, w11, w12, w13, w14, w15] :: toBlocks rest
  | _ => []

/-- SHA-256 digest, 32 bytes, of a byte list. -/
def sha256 (msg : List Nat) : List Nat :=
  ((toBlocks (toWords (sha256Pad msg))).foldl sha256Compress sha256Init).flatMap
    (bytesBE 4)

/-! ## RFC 2104 HMAC-SHA256 -/

/-- HMAC-SHA256 of a message under a key, 32 digest bytes. -/
def hmacSha256 (key msg : List Nat) : List Nat :=
  let k0 :=
    if 64 < key.length then sha256 key ++ List.replicate 32 0
    else key ++ List.replicate (64 - key.length) 0
  sha256 ((k0.map (fun b => Nat.xor b 92)) ++
    sha256 ((k0.map (fun b => Nat.xor b 54)) ++ msg))


/-! ## Webhook endpoint (app/api/shopify-webhook/route.ts)

The POST handler reads the raw body, checks the x-shopify-hmac-sha256 header
against the base64 HMAC-SHA256 of the body under the configured secret
(skipping the check entirely when the secret still equals the placeholder
default), then parses the body as JSON and switches on the topic header,
always answering 200 once parsing succeeds. The model takes the raw body as
bytes, the three headers as optional strings, and the outcome of JSON.parse
as a boolean oracle (the payload itself is only used in log interpolation).
The handler is a total function: every input produces a response, which is
how the model renders that verification failure never throws. Log calls are
recorded with their console level; log-message interpolation of payload
fields is elided. -/

/-- Console log level used by the route: console.log, console.warn,
console.error. -/
inductive LogLevel
  | info
  | warn
  | error
deriving DecidableEq

/-- One recorded console call. -/
structure LogEntry where
  level : LogLevel
  msg : String
deriving DecidableEq

/-- Observable outcome of the webhook POST handler: HTTP status, the success
flag of the JSON body, the error string of the JSON body, and the console
output. -/
structure WebhookResult where
  status : Nat
  ok : Bool
  error : Option String
  logs : List LogEntry
deriving DecidableEq

/-- The placeholder default for SHOPIFY_WEBHOOK_SECRET. -/
def webhookPlaceholder : String := "your-webhook-secret"

/-- The expected header value: base64 of the HMAC-SHA256 of the raw body
bytes under the UTF-8 bytes of the secret. -/
def expectedSig (secret : String) (body : List Nat) : String :=
  base64Encode (hmacSha256 (utf8Bytes secret) body)

/-- The comparison the route performs: hmacHeader !== expectedHmac, negated.
A missing header compares unequal to every expected value. -/
def sigAccept (expected : String) (header : Option String) : Bool :=
  header == some expected

/-- The log line produced by the topic switch; unrecognized and missing
topics fall to the default arm. -/
def topicLog (topicHeader : Option String) : LogEntry :=
  match topicHeader with
  | some "orders/create" => ⟨.info, "New order created"⟩
  | some "orders/updated" => ⟨.info, "Order updated"⟩
  | some "products/create" => ⟨.info, "New product created"⟩
  | some "products/update" => ⟨.info, "Product updated"⟩
  | some "app/uninstalled" => ⟨.info, "App uninstalled from shop"⟩
  | _ => ⟨.info, "Unhandled webhook topic"⟩

/-- The handler tail after the signature gate: JSON parse then topic switch
then unconditional 200. -/
def webhookDispatch (logs0 : List LogEntry) (topicHeader : Option String)
    (parseOk : Bool) : WebhookResult :=
  if parseOk then
    ⟨200, true, none, logs0 ++ [topicLog topicHeader]⟩
  else
    ⟨400, false, some "Invalid JSON",
      logs0 ++ [⟨.error, "Failed to parse webhook payload"⟩]⟩

/-- The webhook POST handler. -/
def webhookPost (secret : String) (body : List Nat) (hmacHeader : Option String)
    (topicHeader : Option String) (_shopHeader : Option String)
    (parseOk : Bool) : WebhookResult :=
  let logs0 : List LogEntry := [⟨.info, "Webhook received"⟩]
  if secret = webhookPlaceholder then
    webhookDispatch logs0 topicHeader parseOk
  else if sigAccept (expectedSig secret body) hmacHeader then
    webhookDispatch logs0 topicHeader parseOk
  else
    ⟨401, false, some "Invalid signature",
      logs0 ++ [⟨.error, "Webhook signature verification failed"⟩]⟩

/-! ## Cost model of the signature comparison

The route compares the header and the expected digest with plain string
inequality. String equality is evaluated left to right and stops at the
first differing character; cmpSteps counts the character comparisons that
evaluation performs, and firstDiff names the position of the first
difference. -/

/-- Character comparisons performed by short-circuit equality of two
character lists. -/
def cmpSteps : List Char → List Char → Nat
  | a :: as, b :: bs => if a = b then 1 + cmpSteps as bs else 1
  | _, _ => 0

/-- Position of the first differing character, when one exists within the
shared length. -/
def firstDiff : List Char → List Char → Option Nat
  | a :: as, b :: bs =>
      if a = b then (firstDiff as bs).map (· + 1) else some 0
  | _, _ => none

/-- Comparisons performed when the expected digest is compared with a given
header value. -/
def sigCompareSteps (expected given : String) : Nat :=
  cmpSteps expected.data given.data

/-! ## Session verification endpoint (app/api/auth/session/route.ts)

The GET handler reads the session_token cookie; a missing or empty value is
answered 401 without touching the cookie, a present value is passed to
AuthService.verifySession, whose outcome decides between 200 with the user
and 401 with the error plus deletion of the cookie. verifySession lives
outside the translated sources, so it enters the model as an oracle mapping
the token to its outcome. -/

/-- JavaScript truthiness of an optional string: absent and empty are both
falsy. -/
def jsTruthy : Option String → Bool
  | none => false
  | some s => s != ""

/-- The user object verifySession returns on success. -/
structure SessUser where
  userId : String
  username : String
  userType : String
deriving DecidableEq

/-- Outcome of AuthService.verifySession. -/
structure VerifyOutcome where
  success : Bool
  user : Option SessUser
  error : Option String
deriving DecidableEq

/-- Observable outcome of the session GET handler, including whether the
response deletes the session_token cookie. -/
structure SessionResponse where
  status : Nat
  ok : Bool
  user : Option SessUser
  error : Option String
  cookieCleared : Bool
deriving DecidableEq

/-- The session GET handler. -/
def sessionGet (cookie : Option String) (verify : String → VerifyOutcome) :
    SessionResponse :=
  if jsTruthy cookie then
    let r := verify (cookie.getD "")
    if r.success then ⟨200, true, r.user, none, false⟩
    else ⟨401, false, none, r.error, true⟩
  else
    ⟨401, false, none, some "No session token found", false⟩

/-! ## Store-list merge (app/api/products/supplier/route.ts, GET over both
connection sources)

The handler collects seller connections and legacy token stores, loads both
into one JavaScript Map keyed by store URL — all seller connections first
via set, then each legacy store only when its key is still absent — and
returns the values in the Map ordering. JS Map.set replaces the value of an
existing key in place, keeping its original position, and appends a new key
at the end; the association-list operations below reproduce exactly that. -/

/-- One record from SellerStoreService.getSellerStoreConnections. -/
structure SellerConn where
  storeUrl : String
  storeName : String
  connectedAt : String
  updatedAt : String
  connectionType : String
deriving DecidableEq

/-- One record from TokenManager.getUserStores. -/
structure TokenStore where
  shop : String
  created_at : String
  updated_at : String
deriving DecidableEq

/-- One merged entry as the endpoint serializes it. -/
structure StoreEntry where
  shop : String
  name : String
  connectedAt : String
  lastUpdated : String
  type : String
  source : String
deriving DecidableEq

/-- Map.set: replace in place when the key exists, append otherwise. -/
def mapSet : List (String × StoreEntry) → String → StoreEntry →
    List (String × StoreEntry)
  | [], k, v => [(k, v)]
  | p :: ps, k, v => if p.1 == k then (k, v) :: ps else p :: mapSet ps k v

/-- Map.has. -/
def mapHas : List (String × StoreEntry) → String → Bool
  | [], _ => false
  | p :: ps, k => p.1 == k || mapHas ps k

/-- Map.get, for stating lookups. -/
def mapLookup : List (String × StoreEntry) → String → Option StoreEntry
  | [], _ => none
  | p :: ps, k => if p.1 == k then some p.2 else mapLookup ps k

/-- The entry built from a seller connection, source seller_connections. -/
def primaryEntry (c : SellerConn) : StoreEntry :=
  ⟨c.storeUrl, c.storeName, c.connectedAt, c.updatedAt, c.connectionType,
   "seller_connections"⟩

/-- The entry built from a legacy token store: the shop URL doubles as the
display name, source shopify_tokens. -/
def legacyEntry (t : TokenStore) : StoreEntry :=
  ⟨t.shop, t.shop, t.created_at, t.updated_at, "legacy", "shopify_tokens"⟩

/-- First forEach: every seller connection is set unconditionally. -/
def primaryFold (m : List (String × StoreEntry)) (conns : List SellerConn) :
    List (String × StoreEntry) :=
  conns.foldl (fun m c => mapSet m c.storeUrl (primaryEntry c)) m

/-- Second forEach: a legacy store is set only when its key is absent. -/
def legacyFold (m : List (String × StoreEntry)) (tokens : List TokenStore) :
    List (String × StoreEntry) :=
  tokens.foldl
    (fun m t => if mapHas m t.shop then m else mapSet m t.shop (legacyEntry t)) m

/-- The Map the handler builds from the two sources. -/
def mergeMap (conns : List SellerConn) (tokens : List TokenStore) :
    List (String × StoreEntry) :=
  legacyFold (primaryFold [] conns) tokens

/-- Array.from(storeMap.values()): the merged store list. -/
def mergeStores (conns : List SellerConn) (tokens : List TokenStore) :
    List StoreEntry :=
  (mergeMap conns tokens).map Prod.snd

/-! ## Push endpoint (app/api/push-to-shopify/route.ts)

The POST handler validates the product and shop, resolves credentials —
the single active store_configs row for the shop when one exists, else the
legacy TokenManager token — and calls the external platform, passing a
non-2xx upstream status through verbatim. The supabase row lookup uses
single(), which yields a row exactly when the filtered result has one
element. TokenManager lives outside the translated sources and enters as an
oracle from shop to optional token; the upstream response enters as an
input. The ProductMapping insert after success and the supplier-id header
only feed logging and a best-effort write no claim touches, so the model
stops at the response; the model records whether the legacy store was
consulted and whether the upstream call was made. -/

/-- One product variant as validated: only the price field is consulted. -/
structure Variant where
  price : Option String
deriving DecidableEq

/-- The product payload as validated: title and the variants array. A
present variants field is an array; the Array.isArray guard of the source
collapses into presence. -/
structure Product where
  title : Option String
  variants : Option (List Variant)
deriving DecidableEq

/-- One store_configs row. -/
structure StoreConfig where
  store_url : String
  is_active : Bool
  access_token : Option String
  api_key : Option String
  api_secret : Option String
deriving DecidableEq

/-- The authentication scheme placed on the outgoing request: the
X-Shopify-Access-Token header, or the Authorization header carrying Basic
plus the base64 credential. -/
inductive AuthHeader
  | accessToken (t : String)
  | basicAuth (cred : String)
deriving DecidableEq

/-- The external platform response, as far as the handler inspects it. -/
structure Upstream where
  status : Nat
  productId : Option String
deriving DecidableEq

/-- Observable outcome of the push POST handler. -/
structure PushResult where
  status : Nat
  ok : Bool
  error : Option String
  auth : Option AuthHeader
  legacyConsulted : Bool
  networkCalled : Bool
deriving DecidableEq

/-- The 400 body for a missing product or shop. -/
def pushMissingError : String := "Missing shop or product data"

/-- The 400 body for a failed product validation; it names the variant and
price requirement. -/
def pushVariantError : String :=
  "Product must have a title and at least one variant with a price"

/-- The 401 body for a malformed active store_configs row. -/
def pushNoDirectCredsError : String :=
  "No valid credentials found for direct API store"

/-- The 401 body when the legacy token store also has nothing. -/
def pushNoTokenError : String :=
  "Missing access token. Please connect to Shopify first."

/-- Truthiness of product.variants[0]?.price. -/
def variantPriceOk (p : Product) : Bool :=
  jsTruthy ((p.variants.getD []).head?.bind Variant.price)

/-- The second validation guard: title truthy, variants an array, first
variant priced. -/
def productValid (p : Product) : Bool :=
  jsTruthy p.title && p.variants.isSome && variantPriceOk p

/-- The store_configs rows matching store_url = shop and is_active = true. -/
def activeConfigs (configs : List StoreConfig) (shop : String) :
    List StoreConfig :=
  configs.filter (fun c => c.store_url == shop && c.is_active)

/-- single(): a row exactly when the filtered result is one row. -/
def singleActive (configs : List StoreConfig) (shop : String) :
    Option StoreConfig :=
  match activeConfigs configs shop with
  | [c] => some c
  | _ => none

/-- The upstream call and response handling shared by every resolved
credential. -/
def pushUpstream (upstream : Upstream) (auth : AuthHeader) (legacy : Bool) :
    PushResult :=
  if 200 ≤ upstream.status ∧ upstream.status ≤ 299 then
    ⟨200, true, none, some auth, legacy, true⟩
  else
    ⟨upstream.status, false, some "Shopify error", some auth, legacy, true⟩

/-- The push POST handler. -/
def pushPost (configs : List StoreConfig) (getToken : String → Option String)
    (upstream : Upstream) (productIn : Option Product) (shop : Option String) :
    PushResult :=
  if productIn.isNone || !(jsTruthy shop) then
    ⟨400, false, some pushMissingError, none, false, false⟩
  else
    if !(productValid (productIn.getD ⟨none, none⟩)) then
      ⟨400, false, some pushVariantError, none, false, false⟩
    else
      match singleActive configs (shop.getD "") with
      | some cfg =>
          if jsTruthy cfg.access_token then
            pushUpstream upstream (.accessToken (cfg.access_token.getD "")) false
          else if jsTruthy cfg.api_key && jsTruthy cfg.api_secret then
            pushUpstream upstream
              (.basicAuth (base64Encode (utf8Bytes
                (cfg.api_key.getD "" ++ ":" ++ cfg.api_secret.getD "")))) false
          else
            ⟨401, false, some pushNoDirectCredsError, none, false, false⟩
      | none =>
          match getToken (shop.getD "") with
          | some t => pushUpstream upstream (.accessToken t) true
          | none => ⟨401, false, some pushNoTokenError, none, true, false⟩

/-- The two validation guards taken together: exactly the inputs the handler
rejects with 400 before resolving credentials. -/
def pushValidationFails (productIn : Option Product) (shop : Option String) :
    Bool :=
  (productIn.isNone || !(jsTruthy shop)) ||
    !(productValid (productIn.getD ⟨none, none⟩))

/-! ## Concrete records used by witnesses and counterexamples -/

/-- A primary-registry connection used as concrete test data. -/
def wConn : SellerConn :=
  ⟨"a.myshopify.com", "Store A", "2024-01-01", "2024-01-02", "oauth"⟩

/-- A legacy token-store record for a different shop. -/
def wTok : TokenStore := ⟨"b.myshopify.com", "2024-03-01", "2024-03-02"⟩

/-- A legacy token-store record for the same shop as wConn, strictly newer
than it. -/
def wTokSame : TokenStore := ⟨"a.myshopify.com", "2024-03-01", "2024-03-02"⟩

/-- First of two legacy records sharing one shop key. -/
def dupTok1 : TokenStore := ⟨"s1.myshopify.com", "2024-01-01", "2024-01-01"⟩

/-- Second of two legacy records sharing one shop key, strictly newer. -/
def dupTok2 : TokenStore := ⟨"s1.myshopify.com", "2024-02-02", "2024-02-02"⟩

/-- A product passing validation. -/
def okProduct : Product := ⟨some "Widget", some [⟨some "9.99"⟩]⟩

/-- An active direct-config row carrying an access token. -/
def tokConfig : StoreConfig := ⟨"shopx.myshopify.com", true, some "tok-1", none, none⟩

/-- An active direct-config row carrying only a key pair. -/
def pairConfig : StoreConfig :=
  ⟨"shopx.myshopify.com", true, none, some "mykey", some "mysecret"⟩

/-- An active direct-config row with neither a token nor a complete pair. -/
def badConfig : StoreConfig := ⟨"shopx.myshopify.com", true, none, some "mykey", none⟩

/-- The raw body of the spec test vector, the bytes of \x7b"id":1\x7d. -/
def testBody : List Nat := utf8Bytes "\x7b\"id\":1\x7d"

/-- The correct signature for testBody under secret s3cret: base64 of its
HMAC-SHA256 digest. -/
def goodSig : String := "Y92rNNpYOOODVF6ckLQPdKTj2qvF3ZqNSaUYda1LJBg="

/-- goodSig with its first character flipped. -/
def flippedSig : String := "Z92rNNpYOOODVF6ckLQPdKTj2qvF3ZqNSaUYda1LJBg="

/-! ## Association-list lemmas for the Map model -/

/-- Setting a key makes it look up to the new value. -/
theorem mapLookup_set_self (m : List (String × StoreEntry)) (k : String)
    (v : StoreEntry) : mapLookup (mapSet m k v) k = some v := by
  induction m with
  | nil => simp [mapSet, mapLookup]
  | cons p ps ih =>
    by_cases h : p.1 = k
    · simp [mapSet, mapLookup, h]
    · simp [mapSet, mapLookup, h, ih]

/-- Setting one key leaves every other key unchanged. -/
theorem mapLookup_set_ne (m : List (String × StoreEntry)) (k q : String)
    (v : StoreEntry) (h : q ≠ k) :
    mapLookup (mapSet m k v) q = mapLookup m q := by
  induction m with
  | nil => simp [mapSet, mapLookup, Ne.symm h]
  | cons p ps ih =>
    by_cases hp : p.1 = k
    · have hq : p.1 ≠ q := by rw [hp]; exact Ne.symm h
      simp [mapSet, mapLookup, hp, hq, Ne.symm h]
    · by_cases hq : p.1 = q
      · simp [mapSet, mapLookup, hp, hq, h]
      · simp [mapSet, mapLookup, hp, hq, h, ih]

/-- A key that looks up is present. -/
theorem mapHas_of_lookup (m : List (String × StoreEntry)) (k : String)
    (v : StoreEntry) (h : mapLookup m k = some v) : mapHas m k = true := by
  induction m with
  | nil => simp [mapLookup] at h
  | cons p ps ih =>
    by_cases hp : p.1 = k
    · simp [mapHas, hp]
    · simp [mapLookup, hp] at h
      simp [mapHas, hp, ih h]

/-- The legacy pass never changes a key that is already present. -/
theorem legacyFold_preserves (tokens : List TokenStore) :
    ∀ (m : List (String × StoreEntry)) (k : String) (v : StoreEntry),
      mapLookup m k = some v → mapLookup (legacyFold m tokens) k = some v := by
  induction tokens with
  | nil => intro m k v h; simpa [legacyFold] using h
  | cons t ts ih =>
    intro m k v h
    show mapLookup
      (legacyFold (if mapHas m t.shop then m else mapSet m t.shop (legacyEntry t)) ts) k
      = some v
    by_cases hh : mapHas m t.shop = true
    · rw [if_pos hh]
      exact ih m k v h
    · rw [if_neg hh]
      by_cases hk : t.shop = k
      · exact absurd (hk ▸ mapHas_of_lookup m k v h) hh
      · exact ih _ k v ((mapLookup_set_ne m t.shop k (legacyEntry t)
          (Ne.symm hk)).trans h)

/-- The primary pass does not touch a key no seller connection has. -/
theorem primaryFold_no_key (conns : List SellerConn) :
    ∀ (m : List (String × StoreEntry)) (k : String),
      (∀ c ∈ conns, c.storeUrl ≠ k) →
      mapLookup (primaryFold m conns) k = mapLookup m k := by
  induction conns with
  | nil => intro m k _; rfl
  | cons c cs ih =>
    intro m k h
    show mapLookup (primaryFold (mapSet m c.storeUrl (primaryEntry c)) cs) k
      = mapLookup m k
    rw [ih _ k (fun x hx => h x (List.mem_cons_of_mem c hx)),
        mapLookup_set_ne m c.storeUrl k _
          (Ne.symm (h c (List.mem_cons_self c cs)))]

/-- After the primary pass, a key some seller connection has looks up to the
entry of one of those connections. -/
theorem primaryFold_lookup (conns : List SellerConn) :
    ∀ (m : List (String × StoreEntry)) (k : String),
      (∃ c ∈ conns, c.storeUrl = k) →
      ∃ c, c ∈ conns ∧ c.storeUrl = k ∧
        mapLookup (primaryFold m conns) k = some (primaryEntry c) := by
  induction conns with
  | nil => intro m k h; simp at h
  | cons c cs ih =>
    intro m k h
    by_cases hex : ∃ x ∈ cs, x.storeUrl = k
    · obtain ⟨x, hx, hxk, hl⟩ := ih (mapSet m c.storeUrl (primaryEntry c)) k hex
      exact ⟨x, List.mem_cons_of_mem c hx, hxk, hl⟩
    · have hck : c.storeUrl = k := by
        obtain ⟨y, hy, hyk⟩ := h
        rcases List.mem_cons.mp hy with rfl | hy2
        · exact hyk
        · exact absurd ⟨y, hy2, hyk⟩ hex
      refine ⟨c, List.mem_cons_self c cs, hck, ?_⟩
      have hnone : ∀ x ∈ cs, x.storeUrl ≠ k := by
        intro x hx hxx
        exact hex ⟨x, hx, hxx⟩
      show mapLookup (primaryFold (mapSet m c.storeUrl (primaryEntry c)) cs) k
        = some (primaryEntry c)
      rw [primaryFold_no_key cs _ k hnone, hck, mapLookup_set_self]

/-- C3: in the merged store list, a primary-registry entry always wins over a
legacy token-store entry with the same store key, whatever the two updated
timestamps are — the merged result keeps the primary entry, and with it the
primary display name — and a seller with one primary-registry store and one
legacy-only store gets exactly two entries with the primary-source entry
first. -/
theorem store_merge_primary_precedence :
    (∀ (conns : List SellerConn) (tokens : List TokenStore) (k : String),
      (∃ c ∈ conns, c.storeUrl = k) →
      ∃ c, c ∈ conns ∧ c.storeUrl = k ∧
        mapLookup (mergeMap conns tokens) k = some (primaryEntry c)) ∧
    (∀ (c : SellerConn) (t : TokenStore), t.shop ≠ c.storeUrl →
      mergeStores [c] [t] = [primaryEntry c, legacyEntry t]) := by
  constructor
  · intro conns tokens k h
    obtain ⟨c, hc, hck, hl⟩ := primaryFold_lookup conns [] k h
    exact ⟨c, hc, hck, legacyFold_preserves tokens _ k _ hl⟩
  · intro c t h
    simp [mergeStores, mergeMap, primaryFold, legacyFold, mapSet, mapHas,
      Ne.symm h]

/-- Closed instance of store_merge_primary_precedence: the legacy record
wTokSame shares the key of wConn and is strictly newer, yet the merge keeps
the primary entry; one primary store plus one legacy-only store merge to the
two entries in primary-first order. -/
theorem store_merge_primary_precedence_witness :
    (∃ c, c ∈ [wConn] ∧ c.storeUrl = "a.myshopify.com" ∧
      mapLookup (mergeMap [wConn] [wTokSame]) "a.myshopify.com" =
        some (primaryEntry c)) ∧
    mergeStores [wConn] [wTok] = [primaryEntry wConn, legacyEntry wTok] :=
  ⟨store_merge_primary_precedence.1 [wConn] [wTokSame] "a.myshopify.com"
    ⟨wConn, by simp, by decide⟩,
   store_merge_primary_precedence.2 wConn wTok (by decide)⟩

/-- C6 corrected: when one source repeats a store key, the later occurrence
wins only in the primary source; in the legacy source the earlier occurrence
wins, because a later duplicate finds its key already present and is
skipped. -/
theorem same_source_duplicate_handling (c1 c2 : SellerConn) (t1 t2 : TokenStore)
    (hc : c1.storeUrl = c2.storeUrl) (ht : t1.shop = t2.shop) :
    mergeStores [c1, c2] [] = [primaryEntry c2] ∧
    mergeStores [] [t1, t2] = [legacyEntry t1] := by
  constructor
  · simp [mergeStores, mergeMap, primaryFold, legacyFold, mapSet, hc]
  · simp [mergeStores, mergeMap, primaryFold, legacyFold, mapSet, mapHas, ht]

/-- Closed instance of same_source_duplicate_handling on the concrete
duplicate pairs. -/
theorem same_source_duplicate_handling_witness :
    mergeStores [wConn, ⟨"a.myshopify.com", "Store A2", "2024-05-01",
        "2024-05-02", "direct"⟩] [] =
      [primaryEntry ⟨"a.myshopify.com", "Store A2", "2024-05-01",
        "2024-05-02", "direct"⟩] ∧
    mergeStores [] [dupTok1, dupTok2] = [legacyEntry dupTok1] :=
  same_source_duplicate_handling wConn
    ⟨"a.myshopify.com", "Store A2", "2024-05-01", "2024-05-02", "direct"⟩
    dupTok1 dupTok2 rfl rfl

/-- Counterexample to C6 as stated: dupTok2 repeats the shop key of dupTok1
later in the legacy source with a strictly newer timestamp, yet the merged
result keeps the earlier record, not the later one the claim requires. -/
theorem legacy_duplicate_earlier_wins :
    mergeStores [] [dupTok1, dupTok2] = [legacyEntry dupTok1] ∧
    mergeStores [] [dupTok1, dupTok2] ≠ [legacyEntry dupTok2] := by decide

/-! ## Session endpoint theorems -/

/-- Counterexample to C5 as stated: with no session token the endpoint
answers 401 but does not clear the session_token cookie — the deletion is
issued only on the verification-failure branch. -/
theorem session_no_token_cookie_not_cleared :
    (sessionGet none (fun _ => ⟨false, none, some "Invalid session"⟩)).status
      = 401 ∧
    (sessionGet none
      (fun _ => ⟨false, none, some "Invalid session"⟩)).cookieCleared = false := by
  decide

/-- C5 corrected: a present, nonempty token that verifies yields 200 with
the user; a missing or empty token yields 401 without clearing the cookie;
a present, nonempty token that fails verification yields 401 with the
verifier error and clears the cookie. -/
theorem session_endpoint_contract (cookie : Option String)
    (verify : String → VerifyOutcome) :
    (∀ t, cookie = some t → t ≠ "" → (verify t).success = true →
      sessionGet cookie verify = ⟨200, true, (verify t).user, none, false⟩) ∧
    (jsTruthy cookie = false →
      sessionGet cookie verify =
        ⟨401, false, none, some "No session token found", false⟩) ∧
    (∀ t, cookie = some t → t ≠ "" → (verify t).success = false →
      sessionGet cookie verify = ⟨401, false, none, (verify t).error, true⟩) := by
  refine ⟨?_, ?_, ?_⟩
  · rintro t rfl ht hv
    simp [sessionGet, jsTruthy, ht, hv]
  · intro h
    simp [sessionGet, h]
  · rintro t rfl ht hv
    simp [sessionGet, jsTruthy, ht, hv]

/-- Closed instance of session_endpoint_contract at one verifying and one
failing token. -/
theorem session_endpoint_contract_witness :
    sessionGet (some "tok-ok")
        (fun t => if t = "tok-ok" then ⟨true, some ⟨"u1", "alice", "seller"⟩, none⟩
          else ⟨false, none, some "Invalid or expired session"⟩) =
      ⟨200, true, some ⟨"u1", "alice", "seller"⟩, none, false⟩ ∧
    sessionGet (some "tok-bad")
        (fun _ => ⟨false, none, some "Invalid or expired session"⟩) =
      ⟨401, false, none, some "Invalid or expired session", true⟩ :=
  ⟨by
    have h := (session_endpoint_contract (some "tok-ok")
      (fun t => if t = "tok-ok" then ⟨true, some ⟨"u1", "alice", "seller"⟩, none⟩
        else ⟨false, none, some "Invalid or expired session"⟩)).1
      "tok-ok" rfl (by decide) (by decide)
    simpa using h,
   by
    have h := (session_endpoint_contract (some "tok-bad")
      (fun _ => ⟨false, none, some "Invalid or expired session"⟩)).2.2
      "tok-bad" rfl (by decide) rfl
    simpa using h⟩

/-! ## Comparison cost theorems -/

/-- Short-circuit equality stops one step past the first difference. -/
theorem cmpSteps_eq_of_firstDiff :
    ∀ (a b : List Char) (i : Nat), firstDiff a b = some i →
      cmpSteps a b = i + 1 := by
  intro a
  induction a with
  | nil => intro b i h; simp [firstDiff] at h
  | cons x xs ih =>
    intro b i h
    cases b with
    | nil => simp [firstDiff] at h
    | cons y ys =>
      by_cases hxy : x = y
      · simp only [firstDiff, if_pos hxy, Option.map_eq_some'] at h
        obtain ⟨j, hj, rfl⟩ := h
        simp [cmpSteps, hxy, ih ys j hj]
        omega
      · simp only [firstDiff, if_neg hxy] at h
        obtain rfl : (0 : Nat) = i := Option.some.inj h
        simp [cmpSteps, hxy]

/-- C8 corrected: the route accepts exactly when the header equals the
expected digest, but the comparison it uses is a plain short-circuit string
equality, whose number of character comparisons grows with the position of
the first differing character — it is not a constant-time comparison. -/
theorem signature_compare_short_circuit :
    (∀ (e : String) (h : Option String), sigAccept e h = true ↔ h = some e) ∧
    (∀ (s t1 t2 : String) (i j : Nat),
      firstDiff s.data t1.data = some i → firstDiff s.data t2.data = some j →
      i < j → sigCompareSteps s t1 < sigCompareSteps s t2) := by
  constructor
  · intro e h
    simp [sigAccept]
  · intro s t1 t2 i j h1 h2 hij
    rw [sigCompareSteps, sigCompareSteps, cmpSteps_eq_of_firstDiff _ _ _ h1,
        cmpSteps_eq_of_firstDiff _ _ _ h2]
    omega

/-- Closed instance of signature_compare_short_circuit: a first difference
at position 0 costs strictly fewer comparisons than one at position 3. -/
theorem signature_compare_short_circuit_witness :
    sigAccept "aaaa" (some "aaaa") = true ∧
    sigCompareSteps "aaaa" "baaa" < sigCompareSteps "aaaa" "aaab" :=
  ⟨(signature_compare_short_circuit.1 "aaaa" (some "aaaa")).mpr rfl,
   signature_compare_short_circuit.2 "aaaa" "baaa" "aaab" 0 3
     (by decide) (by decide) (by decide)⟩

/-- Counterexample to C8 as stated: two rejected headers of the same length
differing from the expected value at different first positions take a
different number of character comparisons, so the time taken depends on
where the first differing byte occurs. -/
theorem compare_steps_position_dependent :
    sigAccept "aaaa" (some "aaab") = false ∧
    sigAccept "aaaa" (some "baaa") = false ∧
    sigCompareSteps "aaaa" "aaab" ≠ sigCompareSteps "aaaa" "baaa" := by
  decide

/-! ## Webhook endpoint theorems -/

/-- The dispatch tail never answers 401. -/
theorem webhookDispatch_status_ne_401 (logs0 : List LogEntry)
    (topic : Option String) (parseOk : Bool) :
    (webhookDispatch logs0 topic parseOk).status ≠ 401 := by
  cases parseOk <;> simp [webhookDispatch]

/-- Every topic log line is at console.log level. -/
theorem topicLog_level (t : Option String) : (topicLog t).level = LogLevel.info := by
  unfold topicLog
  split <;> rfl

/-- C2: with a real secret the expected value is the base64 HMAC-SHA256 of
the raw body bytes under the secret; a header equal to it passes the
signature gate, and any other header — flipped, empty or absent — is
answered 401 Invalid signature. The handler is total, so no input throws. -/
theorem webhook_signature_verification (secret : String) (body : List Nat)
    (hmacHeader topicHeader shopHeader : Option String) (parseOk : Bool)
    (hs : secret ≠ webhookPlaceholder) :
    (hmacHeader = some (expectedSig secret body) →
      (webhookPost secret body hmacHeader topicHeader shopHeader parseOk).status
        ≠ 401) ∧
    (hmacHeader ≠ some (expectedSig secret body) →
      (webhookPost secret body hmacHeader topicHeader shopHeader parseOk).status
        = 401 ∧
      (webhookPost secret body hmacHeader topicHeader shopHeader parseOk).error
        = some "Invalid signature") := by
  constructor
  · intro h
    have ha : sigAccept (expectedSig secret body) hmacHeader = true := by
      simp [sigAccept, h]
    simp only [webhookPost, if_neg hs, if_pos ha]
    exact webhookDispatch_status_ne_401 _ _ _
  · intro h
    have ha : ¬ (sigAccept (expectedSig secret body) hmacHeader = true) := by
      simp [sigAccept, h]
    refine ⟨?_, ?_⟩ <;> simp only [webhookPost, if_neg hs, if_neg ha]

/-- C4: once the signature gate passes — placeholder secret or matching
header — and the body parses, the handler answers 200 success for every
topic header, recognized, unrecognized or missing alike. -/
theorem webhook_always_acknowledges (secret : String) (body : List Nat)
    (hmacHeader topicHeader shopHeader : Option String)
    (hsig : secret = webhookPlaceholder ∨
      hmacHeader = some (expectedSig secret body)) :
    (webhookPost secret body hmacHeader topicHeader shopHeader true).status
      = 200 ∧
    (webhookPost secret body hmacHeader topicHeader shopHeader true).ok
      = true := by
  rcases hsig with h | h
  · simp [webhookPost, h, webhookDispatch]
  · by_cases hp : secret = webhookPlaceholder
    · simp [webhookPost, hp, webhookDispatch]
    · have ha : sigAccept (expectedSig secret body) hmacHeader = true := by
        simp [sigAccept, h]
      simp only [webhookPost, if_neg hp, if_pos ha]
      simp [webhookDispatch]

/-- Closed instance of webhook_always_acknowledges: one recognized and one
unrecognized topic, both acknowledged 200 under the bypass secret. -/
theorem webhook_always_acknowledges_witness :
    (webhookPost webhookPlaceholder [] none (some "orders/create") none
      true).status = 200 ∧
    (webhookPost webhookPlaceholder [] none (some "made/up-topic") none
      true).status = 200 :=
  ⟨(webhook_always_acknowledges webhookPlaceholder [] none
      (some "orders/create") none (Or.inl rfl)).1,
   (webhook_always_acknowledges webhookPlaceholder [] none
      (some "made/up-topic") none (Or.inl rfl)).1⟩

/-- C7 corrected: the signature header is ignored exactly when the secret is
the placeholder default — with the placeholder the response is independent
of the header, with a real secret an absent header is answered 401 — but no
warning is ever logged: the handler only emits console.log and console.error
lines, in bypass mode as in verifying mode. -/
theorem webhook_bypass_behavior :
    (∀ (body : List Nat) (h1 h2 topic shop : Option String) (parseOk : Bool),
      webhookPost webhookPlaceholder body h1 topic shop parseOk =
        webhookPost webhookPlaceholder body h2 topic shop parseOk) ∧
    (∀ (secret : String) (body : List Nat) (topic shop : Option String)
      (parseOk : Bool), secret ≠ webhookPlaceholder →
      (webhookPost secret body none topic shop parseOk).status = 401) ∧
    (∀ (secret : String) (body : List Nat)
      (hdr topic shop : Option String) (parseOk : Bool),
      ((webhookPost secret body hdr topic shop parseOk).logs.all
        (fun e => e.level != LogLevel.warn)) = true) := by
  refine ⟨?_, ?_, ?_⟩
  · intro body h1 h2 topic shop parseOk
    simp [webhookPost]
  · intro secret body topic shop parseOk hs
    have ha : ¬ (sigAccept (expectedSig secret body) none = true) := by
      simp [sigAccept]
    simp only [webhookPost, if_neg hs, if_neg ha]
  · intro secret body hdr topic shop parseOk
    have hd : ∀ (l0 : List LogEntry),
        (l0.all (fun e => e.level != LogLevel.warn)) = true →
        ((webhookDispatch l0 topic parseOk).logs.all
          (fun e => e.level != LogLevel.warn)) = true := by
      intro l0 h0
      cases parseOk <;>
        simp [webhookDispatch, List.all_append, h0, topicLog_level]
    by_cases hp : secret = webhookPlaceholder
    · simp only [webhookPost, if_pos hp]
      exact hd _ (by decide)
    · by_cases ha : sigAccept (expectedSig secret body) hdr = true
      · simp only [webhookPost, if_neg hp, if_pos ha]
        exact hd _ (by decide)
      · simp only [webhookPost, if_neg hp, if_neg ha]
        decide

/-- Closed instance of webhook_bypass_behavior: under the placeholder secret
the response ignores the header, and a non-placeholder secret rejects an
absent header. -/
theorem webhook_bypass_behavior_witness :
    webhookPost webhookPlaceholder [] (some "anything") none none true =
      webhookPost webhookPlaceholder [] none none none true ∧
    (webhookPost "s3cret" [] none none none true).status = 401 :=
  ⟨webhook_bypass_behavior.1 [] (some "anything") none none none true,
   webhook_bypass_behavior.2.1 "s3cret" [] none none true (by decide)⟩

/-- Counterexample to C7 as stated: a request processed in bypass mode — the
placeholder secret, no header — is acknowledged 200 while the log output
contains no warning-level entry at all. -/
theorem bypass_mode_no_warning_logged :
    (webhookPost webhookPlaceholder (utf8Bytes "\x7b\x7d") none none none
      true).status = 200 ∧
    ((webhookPost webhookPlaceholder (utf8Bytes "\x7b\x7d") none none none
      true).logs.all (fun e => e.level != LogLevel.warn)) = true := by
  decide

/-! ## Push endpoint theorems -/

/-- The upstream call carries exactly the resolved auth header. -/
theorem pushUpstream_auth (u : Upstream) (a : AuthHeader) (l : Bool) :
    (pushUpstream u a l).auth = some a := by
  unfold pushUpstream
  split <;> rfl

/-- The upstream call records whether the legacy store was consulted. -/
theorem pushUpstream_legacy (u : Upstream) (a : AuthHeader) (l : Bool) :
    (pushUpstream u a l).legacyConsulted = l := by
  unfold pushUpstream
  split <;> rfl

/-- The upstream call marks the network as called. -/
theorem pushUpstream_network (u : Upstream) (a : AuthHeader) (l : Bool) :
    (pushUpstream u a l).networkCalled = true := by
  unfold pushUpstream
  split <;> rfl

/-- The upstream call answers 200 or passes the upstream status through. -/
theorem pushUpstream_status (u : Upstream) (a : AuthHeader) (l : Bool) :
    (pushUpstream u a l).status = 200 ∨ (pushUpstream u a l).status = u.status := by
  unfold pushUpstream
  split
  · exact Or.inl rfl
  · exact Or.inr rfl

/-- C1: with both inputs present and the product valid, resolution follows
the fixed precedence. A sole active direct-config row with a truthy access
token yields that token and never consults the legacy store, even when the
row also carries a key pair; a sole active row without a token but with a
complete key pair yields Basic auth with base64 of apiKey:apiSecret, still
without consulting the legacy store; when no active row exists the legacy
store is consulted and a found token is used. -/
theorem push_credential_precedence (configs : List StoreConfig)
    (getToken : String → Option String) (upstream : Upstream)
    (p : Product) (s : String) (hs : s ≠ "") (hp : productValid p = true) :
    (∀ cfg t, activeConfigs configs s = [cfg] → cfg.access_token = some t →
      t ≠ "" →
      (pushPost configs getToken upstream (some p) (some s)).auth =
        some (AuthHeader.accessToken t) ∧
      (pushPost configs getToken upstream (some p) (some s)).legacyConsulted
        = false) ∧
    (∀ cfg k sec, activeConfigs configs s = [cfg] →
      jsTruthy cfg.access_token = false →
      cfg.api_key = some k → k ≠ "" → cfg.api_secret = some sec → sec ≠ "" →
      (pushPost configs getToken upstream (some p) (some s)).auth =
        some (AuthHeader.basicAuth (base64Encode (utf8Bytes (k ++ ":" ++ sec)))) ∧
      (pushPost configs getToken upstream (some p) (some s)).legacyConsulted
        = false) ∧
    (∀ cfg, activeConfigs configs s = [cfg] →
      (pushPost configs getToken upstream (some p) (some s)).legacyConsulted
        = false) ∧
    (activeConfigs configs s = [] →
      (pushPost configs getToken upstream (some p) (some s)).legacyConsulted
        = true ∧
      ∀ t, getToken s = some t →
        (pushPost configs getToken upstream (some p) (some s)).auth =
          some (AuthHeader.accessToken t)) := by
  have hss : jsTruthy (some s) = true := by simp [jsTruthy, hs]
  refine ⟨?_, ?_, ?_, ?_⟩
  · intro cfg t hc ht htne
    have h1 : jsTruthy (some t) = true := by simp [jsTruthy, htne]
    simp [pushPost, hss, hp, singleActive, hc, ht, h1,
      pushUpstream_auth, pushUpstream_legacy]
  · intro cfg k sec hc h1 hk hkne hsec hsecne
    have h3 : jsTruthy (some k) = true := by simp [jsTruthy, hkne]
    have h4 : jsTruthy (some sec) = true := by simp [jsTruthy, hsecne]
    simp [pushPost, hss, hp, singleActive, hc, h1, hk, hsec, h3, h4,
      pushUpstream_auth, pushUpstream_legacy]
  · intro cfg hc
    by_cases h1 : jsTruthy cfg.access_token = true
    · simp [pushPost, hss, hp, singleActive, hc, h1, pushUpstream_legacy]
    · by_cases h2 : (jsTruthy cfg.api_key && jsTruthy cfg.api_secret) = true
      · simp [pushPost, hss, hp, singleActive, hc, h1, h2, pushUpstream_legacy]
      · simp [pushPost, hss, hp, singleActive, hc, h1, h2]
  · intro hc
    constructor
    · rcases hg : getToken s with _ | t <;>
        simp [pushPost, hss, hp, singleActive, hc, hg, pushUpstream_legacy]
    · intro t hg
      simp [pushPost, hss, hp, singleActive, hc, hg, pushUpstream_auth]

/-- Closed instance of push_credential_precedence: a direct-config row that
carries only a key pair wins over an available legacy token, and the
resolved header is Basic base64(apiKey:apiSecret). -/
theorem push_credential_precedence_witness :
    (pushPost [pairConfig] (fun _ => some "legacy-token") ⟨200, some "77"⟩
      (some okProduct) (some "shopx.myshopify.com")).auth =
      some (AuthHeader.basicAuth
        (base64Encode (utf8Bytes ("mykey" ++ ":" ++ "mysecret")))) ∧
    (pushPost [pairConfig] (fun _ => some "legacy-token") ⟨200, some "77"⟩
      (some okProduct) (some "shopx.myshopify.com")).legacyConsulted = false :=
  (push_credential_precedence [pairConfig] (fun _ => some "legacy-token")
      ⟨200, some "77"⟩ okProduct "shopx.myshopify.com" (by decide)
      (by decide)).2.1
    pairConfig "mykey" "mysecret" (by decide) (by decide) rfl (by decide) rfl
    (by decide)

/-- C10: an active direct-config row with neither a truthy access token nor
a complete key pair fails the push 401 without consulting the legacy token
store and without any upstream call. -/
theorem malformed_direct_config_blocks_legacy (configs : List StoreConfig)
    (getToken : String → Option String) (upstream : Upstream)
    (p : Product) (s : String) (cfg : StoreConfig)
    (hs : s ≠ "") (hp : productValid p = true)
    (hc : activeConfigs configs s = [cfg])
    (ht : jsTruthy cfg.access_token = false)
    (hk : (jsTruthy cfg.api_key && jsTruthy cfg.api_secret) = false) :
    (pushPost configs getToken upstream (some p) (some s)).status = 401 ∧
    (pushPost configs getToken upstream (some p) (some s)).legacyConsulted
      = false ∧
    (pushPost configs getToken upstream (some p) (some s)).networkCalled
      = false := by
  have hss : jsTruthy (some s) = true := by simp [jsTruthy, hs]
  simp [pushPost, hss, hp, singleActive, hc, ht, hk]

/-- Closed instance of malformed_direct_config_blocks_legacy: an active row
with only an api_key blocks the push even though a legacy token exists. -/
theorem malformed_direct_config_blocks_legacy_witness :
    (pushPost [badConfig] (fun _ => some "legacy-token") ⟨200, some "77"⟩
      (some okProduct) (some "shopx.myshopify.com")).status = 401 ∧
    (pushPost [badConfig] (fun _ => some "legacy-token") ⟨200, some "77"⟩
      (some okProduct) (some "shopx.myshopify.com")).legacyConsulted = false ∧
    (pushPost [badConfig] (fun _ => some "legacy-token") ⟨200, some "77"⟩
      (some okProduct) (some "shopx.myshopify.com")).networkCalled = false :=
  malformed_direct_config_blocks_legacy [badConfig]
    (fun _ => some "legacy-token") ⟨200, some "77"⟩ okProduct
    "shopx.myshopify.com" badConfig (by decide) (by decide) (by decide)
    (by decide) (by decide)

/-- Branch analysis of the push handler: a failed validation answers 400
before any network call; past validation the handler either fails 401
without a network call or calls upstream and answers 200 or the upstream
status verbatim. -/
theorem pushPost_cases (configs : List StoreConfig)
    (getToken : String → Option String) (upstream : Upstream)
    (productIn : Option Product) (shop : Option String) :
    (pushValidationFails productIn shop = true ∧
      (pushPost configs getToken upstream productIn shop).status = 400 ∧
      (pushPost configs getToken upstream productIn shop).networkCalled
        = false) ∨
    (pushValidationFails productIn shop = false ∧
      (((pushPost configs getToken upstream productIn shop).status = 401 ∧
        (pushPost configs getToken upstream productIn shop).networkCalled
          = false) ∨
       ((pushPost configs getToken upstream productIn shop).networkCalled
          = true ∧
        ((pushPost configs getToken upstream productIn shop).status = 200 ∨
         (pushPost configs getToken upstream productIn shop).status
           = upstream.status)))) := by
  by_cases h0 : (productIn.isNone || !(jsTruthy shop)) = true
  · left
    refine ⟨by simp [pushValidationFails, h0], ?_, ?_⟩ <;> simp [pushPost, h0]
  · have h0f : (productIn.isNone || !(jsTruthy shop)) = false := by
      revert h0
      cases productIn.isNone || !(jsTruthy shop) <;> simp
    by_cases h1 : productValid (productIn.getD ⟨none, none⟩) = true
    · right
      refine ⟨by simp [pushValidationFails, h0f, h1], ?_⟩
      rcases hsa : singleActive configs (shop.getD "") with _ | cfg
      · rcases hg : getToken (shop.getD "") with _ | t
        · left
          constructor <;> simp [pushPost, h0f, h1, hsa, hg]
        · right
          constructor
          · simp [pushPost, h0f, h1, hsa, hg, pushUpstream_network]
          · have := pushUpstream_status upstream (AuthHeader.accessToken t) true
            simpa [pushPost, h0f, h1, hsa, hg] using this
      · by_cases ht : jsTruthy cfg.access_token = true
        · right
          constructor
          · simp [pushPost, h0f, h1, hsa, ht, pushUpstream_network]
          · have := pushUpstream_status upstream
              (AuthHeader.accessToken (cfg.access_token.getD "")) false
            simpa [pushPost, h0f, h1, hsa, ht] using this
        · by_cases hk2 : (jsTruthy cfg.api_key && jsTruthy cfg.api_secret) = true
          · right
            constructor
            · simp [pushPost, h0f, h1, hsa, ht, hk2, pushUpstream_network]
            · have := pushUpstream_status upstream
                (AuthHeader.basicAuth (base64Encode (utf8Bytes
                  (cfg.api_key.getD "" ++ ":" ++ cfg.api_secret.getD ""))))
                false
              simpa [pushPost, h0f, h1, hsa, ht, hk2] using this
          · left
            constructor <;> simp [pushPost, h0f, h1, hsa, ht, hk2]
    · left
      have h1f : productValid (productIn.getD ⟨none, none⟩) = false := by
        revert h1
        cases productValid (productIn.getD ⟨none, none⟩) <;> simp
      refine ⟨by simp [pushValidationFails, h1f], ?_, ?_⟩ <;>
        simp [pushPost, h0f, h1f]

/-- C9 corrected: the push answers 400 with no network call exactly when
validation fails — product or shop missing or empty, title missing, variants
missing, or the first variant unpriced; a product missing variants yields
400 with the message naming the variant and price requirement and no network
call; but a 400 can also be surfaced verbatim from the upstream response
after a network call, so not every 400 is a validation failure. -/
theorem push_400_characterization (configs : List StoreConfig)
    (getToken : String → Option String) (upstream : Upstream)
    (productIn : Option Product) (shop : Option String) :
    ((pushPost configs getToken upstream productIn shop).status = 400 ∧
      (pushPost configs getToken upstream productIn shop).networkCalled
        = false ↔
      pushValidationFails productIn shop = true) ∧
    ((pushPost configs getToken upstream productIn shop).networkCalled
        = true →
      (pushPost configs getToken upstream productIn shop).status = 400 →
      upstream.status = 400) ∧
    (∀ p, productIn = some p → jsTruthy shop = true → p.variants = none →
      (pushPost configs getToken upstream productIn shop).status = 400 ∧
      (pushPost configs getToken upstream productIn shop).error
        = some pushVariantError ∧
      (pushPost configs getToken upstream productIn shop).networkCalled
        = false) := by
  refine ⟨?_, ?_, ?_⟩
  · rcases pushPost_cases configs getToken upstream productIn shop with
      ⟨hv, h4, hn⟩ | ⟨hv, ⟨h4, hn⟩ | ⟨hn, hst⟩⟩
    · simp [hv, h4, hn]
    · simp [hv, h4, hn]
    · simp only [hn, hv]
      constructor
      · rintro ⟨_, hb⟩
        cases hb
      · intro hvv
        cases hvv
  · intro hn h4
    rcases pushPost_cases configs getToken upstream productIn shop with
      ⟨hv, ha, hb⟩ | ⟨hv, ⟨ha, hb⟩ | ⟨hb, hst⟩⟩
    · rw [hn] at hb
      cases hb
    · rw [hn] at hb
      cases hb
    · rcases hst with h200 | hup
      · rw [h4] at h200
        omega
      · rw [h4] at hup
        omega
  · intro p hpin hsh hvar
    have hpv : productValid p = false := by simp [productValid, hvar]
    subst hpin
    have h0f : ((some p : Option Product).isNone || !(jsTruthy shop)) = false := by
      simp [hsh]
    refine ⟨?_, ?_, ?_⟩ <;> simp [pushPost, h0f, hpv, hsh]

/-- Closed instance of push_400_characterization at a product missing its
variants: 400 with the variant-and-price message and no network call. -/
theorem push_400_characterization_witness :
    (pushPost [] (fun _ => none) ⟨200, none⟩ (some ⟨some "T", none⟩)
      (some "shopx.myshopify.com")).status = 400 ∧
    (pushPost [] (fun _ => none) ⟨200, none⟩ (some ⟨some "T", none⟩)
      (some "shopx.myshopify.com")).error = some pushVariantError ∧
    (pushPost [] (fun _ => none) ⟨200, none⟩ (some ⟨some "T", none⟩)
      (some "shopx.myshopify.com")).networkCalled = false :=
  (push_400_characterization [] (fun _ => none) ⟨200, none⟩
      (some ⟨some "T", none⟩) (some "shopx.myshopify.com")).2.2
    ⟨some "T", none⟩ rfl (by decide) rfl

/-- Counterexample to C9 as stated: a push whose product and shop are
present and valid still answers 400 when the upstream itself answers 400,
and that 400 follows a network call — so the push does not return 400
exactly in the validation cases, nor only without a network call. -/
theorem upstream_400_after_network_call :
    (pushPost [tokConfig] (fun _ => none) ⟨400, none⟩ (some okProduct)
      (some "shopx.myshopify.com")).status = 400 ∧
    (pushPost [tokConfig] (fun _ => none) ⟨400, none⟩ (some okProduct)
      (some "shopx.myshopify.com")).networkCalled = true ∧
    pushValidationFails (some okProduct) (some "shopx.myshopify.com")
      = false := by
  decide

set_option maxRecDepth 40000 in
/-- Closed instance of webhook_signature_verification on the spec test
vector: body \x7b"id":1\x7d under secret s3cret with its correctly computed
base64 HMAC-SHA256 signature passes the gate; the same signature with its
first character flipped, the empty signature and the absent signature are
each answered 401. -/
theorem webhook_signature_verification_witness :
    ("s3cret" : String) ≠ webhookPlaceholder ∧
    (webhookPost "s3cret" testBody (some goodSig) none none true).status
      ≠ 401 ∧
    (webhookPost "s3cret" testBody (some flippedSig) none none true).status
      = 401 ∧
    (webhookPost "s3cret" testBody (some "") none none true).status = 401 ∧
    (webhookPost "s3cret" testBody none none none true).status = 401 :=
  ⟨by decide,
   (webhook_signature_verification "s3cret" testBody (some goodSig) none none
      true (by decide)).1 (by decide),
   ((webhook_signature_verification "s3cret" testBody (some flippedSig) none
      none true (by decide)).2 (by decide)).1,
   ((webhook_signature_verification "s3cret" testBody (some "") none none
      true (by decide)).2 (by decide)).1,
   ((webhook_signature_verification "s3cret" testBody none none none
      true (by decide)).2 (by decide)).1⟩

end Drp
